import Mathlib

/-!
# BakuScan market-data pipeline: a shallow embedding

This file embeds the market-data aggregation pipeline of the BakuScan
repository (`python_app/scraper.py` and the identification client of
`python_app/main.py`) into Lean 4 and proves properties of it.

Modelling conventions:

* Python `int` becomes `Int` where negative values are reachable (the
  `limit` parameters), `Nat` for counts; Python `float` prices become `ℚ`.
* Python `None`-able values become `Option`; Python dictionaries with a
  fixed key set become structures with the same field names.
* Python exceptions become an explicit `Except PyExc` result: code points
  where the scraper can raise are driven by an environment value, and the
  `try/except` blocks of the source become explicit handler functions.
* The DOM (BeautifulSoup) is not modelled: an environment record carries,
  for each candidate node of the parsed page, the values that the source's
  CSS-selector chains would extract from it (already-resolved optional
  title text, price text, link, the JSON-decoded fields of the `m`
  attribute, and a flag injecting an exception at that node).
-/

/-- Python string slicing `s[:n]` / list slicing `l[:n]`: for `n ≥ 0` the
first `n` elements, for `n < 0` everything but the last `-n` elements. -/
def pySliceTo (n : Int) (l : List α) : List α :=
  if 0 ≤ n then l.take n.toNat else l.take (l.length - (-n).toNat)

/-- Python string truncation `s[:n]` for a nonnegative `n`. -/
def pyTake (n : Nat) (s : String) : String :=
  (s.toList.take n).asString

/-- Python `s.lower()` (ASCII, which is all the source compares). -/
def lowerStr (s : String) : String :=
  (s.toList.map Char.toLower).asString

/-- Substring test on character lists: Python `needle in hay`. -/
def isInfixL : List Char → List Char → Bool
  | n, [] => n.isEmpty
  | n, c :: t => n.isPrefixOf (c :: t) || isInfixL n t

/-- Python `needle in hay` on strings. -/
def strIn (needle hay : String) : Bool :=
  isInfixL needle.toList hay.toList

/-- Python `s.startswith(pre)`. -/
def startsWithStr (s pre : String) : Bool :=
  pre.toList.isPrefixOf s.toList

/-- Python truthiness of an optional string (`None` and `""` are falsy). -/
def truthy : Option String → Bool
  | none => false
  | some s => !(s == "")

/-- Python `a or b` on optional strings (first operand if truthy). -/
def pyOrStr (a b : Option String) : Option String :=
  if truthy a then a else b

/-- Sum of a list of rationals (`sum(prices)`). -/
def qSum : List ℚ → ℚ
  | [] => 0
  | p :: ps => p + qSum ps

/-- Python `min(prices)` on a nonempty list (0 on `[]`, never applied there). -/
def qListMin : List ℚ → ℚ
  | [] => 0
  | p :: ps => ps.foldl min p

/-- Python `max(prices)` on a nonempty list (0 on `[]`, never applied there). -/
def qListMax : List ℚ → ℚ
  | [] => 0
  | p :: ps => ps.foldl max p

/-- `sum(prices) / len(prices)`. -/
def listMean (ps : List ℚ) : ℚ :=
  qSum ps / (ps.length : ℚ)

/-- Floor of a rational, written with `Int.fdiv` so that it evaluates
inside the kernel. -/
def ratFloorZ (q : ℚ) : ℤ :=
  Int.fdiv q.num (q.den : ℤ)

/-- Round a rational to the nearest integer, ties to even — the idealised
semantics of Python's `round` on the exact value. -/
def roundHalfEven (q : ℚ) : ℤ :=
  let f := ratFloorZ q
  let r := q - (f : ℚ)
  if r < 1/2 then f
  else if 1/2 < r then f + 1
  else if f % 2 = 0 then f else f + 1

/-- Python `round(x, 2)`. -/
def round2 (q : ℚ) : ℚ :=
  (roundHalfEven (q * 100) : ℚ) / 100

/-- A Python exception that `except Exception` can catch; the scraper
distinguishes `WebDriverException` from the rest. -/
inductive PyExc where
  | webDriver (msg : String)
  | generic (msg : String)
deriving DecidableEq

/-- `str(e)` of a caught exception. -/
def PyExc.msg : PyExc → String
  | .webDriver m => m
  | .generic m => m

/-- `try body except: handler` where the handler returns normally. -/
def pyTry (body : Except PyExc α) (handler : PyExc → α) : α :=
  match body with
  | .ok a => a
  | .error e => handler e

/-- `try body except: handler` at the exception-propagation level: the
result is still an `Except`, so a handler that re-raised would show up as
`.error`. -/
def pyTryE (body : Except PyExc α) (handler : PyExc → Except PyExc α) :
    Except PyExc α :=
  match body with
  | .ok a => .ok a
  | .error e => handler e

/-! ## Static tables: `ATTRIBUTE_COLORS` and `RARITY_VALUES` -/

/-- `ATTRIBUTE_COLORS` dict of `scraper.py`. -/
def ATTRIBUTE_COLORS (s : String) : Option String :=
  if s = "Pyrus" then some "#e63946"
  else if s = "Aquos" then some "#0ea5e9"
  else if s = "Subterra" then some "#a16207"
  else if s = "Haos" then some "#fbbf24"
  else if s = "Darkus" then some "#7c3aed"
  else if s = "Ventus" then some "#22c55e"
  else none

/-- One row of the `RARITY_VALUES` dict: `{"min": …, "max": …, "avg": …}`. -/
structure RarityTier where
  min : ℚ
  max : ℚ
  avg : ℚ
deriving DecidableEq

/-- `RARITY_VALUES` dict of `scraper.py`. -/
def RARITY_VALUES (s : String) : Option RarityTier :=
  if s = "Common" then some ⟨5, 15, 8⟩
  else if s = "Uncommon" then some ⟨10, 25, 15⟩
  else if s = "Rare" then some ⟨20, 50, 30⟩
  else if s = "Super Rare" then some ⟨40, 100, 60⟩
  else if s = "Ultra Rare" then some ⟨80, 250, 120⟩
  else none

/-- The tier `estimate_price_by_rarity` selects: the named tier when the
label is truthy and present, otherwise the `"Common"` tier. -/
def selectTier (rarity : Option String) : RarityTier :=
  match rarity with
  | some s => if truthy (some s) then (RARITY_VALUES s).getD ⟨5, 15, 8⟩ else ⟨5, 15, 8⟩
  | none => ⟨5, 15, 8⟩

/-! ## Price scraper data model -/

/-- One accepted listing: the dict appended to `result["listings"]`. -/
structure Listing where
  title : String
  price : ℚ
  url : Option String
deriving DecidableEq

/-- The `result` dict of `scrape_ebay_prices` / a `PricingSummary`. -/
structure PricingResult where
  success : Bool
  bakugan_name : String
  average_price : Option ℚ
  min_price : Option ℚ
  max_price : Option ℚ
  num_listings : Nat
  listings : List Listing
  error : Option String
  estimated : Bool
deriving DecidableEq

/-- The dict literal returned by `estimate_price_by_rarity` (it has no
`bakugan_name` key; `result.update(fallback)` merges it into a result). -/
structure EstimateDict where
  success : Bool
  estimated : Bool
  average_price : Option ℚ
  min_price : Option ℚ
  max_price : Option ℚ
  num_listings : Nat
  listings : List Listing
  error : Option String
deriving DecidableEq

/-- `estimate_price_by_rarity(rarity)` of `scraper.py`. -/
def estimate_price_by_rarity (rarity : Option String) : EstimateDict :=
  let values := selectTier rarity
  { success := true
    estimated := true
    average_price := some values.avg
    min_price := some values.min
    max_price := some values.max
    num_listings := 0
    listings := []
    error := none }

/-- `result.update(fallback)`: every key of the fallback dict overwrites
the corresponding key of the result; `bakugan_name` is not a fallback key. -/
def applyUpdate (r : PricingResult) (f : EstimateDict) : PricingResult :=
  { r with
    success := f.success
    estimated := f.estimated
    average_price := f.average_price
    min_price := f.min_price
    max_price := f.max_price
    num_listings := f.num_listings
    listings := f.listings
    error := f.error }

/-- The initial `result` dict of `scrape_ebay_prices`. -/
def initPricingResult (name : String) : PricingResult :=
  { success := false
    bakugan_name := name
    average_price := none
    min_price := none
    max_price := none
    num_listings := 0
    listings := []
    error := none
    estimated := false }

/-! ## Price extraction: `re.search(r'\$?([\d,]+\.?\d*)', price_text)` -/

/-- Character class `[\d,]`. -/
def isDigComma (c : Char) : Bool :=
  c.isDigit || c == ','

/-- Leftmost position where the regex can match: the capture group must
start with a `[\d,]` character (the optional `\$?` prefix never changes
what the group captures). Returns the suffix starting there. -/
def findGroupStart : List Char → Option (List Char)
  | [] => none
  | c :: rest =>
    if isDigComma c then some (c :: rest) else findGroupStart rest

/-- The greedy capture `([\d,]+\.?\d*)` taken at the head of `l` (whose
head is known to be in `[\d,]`). -/
def groupOf (l : List Char) : List Char :=
  let part1 := l.takeWhile isDigComma
  match l.drop part1.length with
  | '.' :: rest2 => part1 ++ '.' :: rest2.takeWhile Char.isDigit
  | _ => part1

/-- Numeric value of a digit string. -/
def digitsVal (l : List Char) : ℕ :=
  l.foldl (fun acc c => acc * 10 + (c.toNat - '0'.toNat)) 0

/-- Python `float(s)` restricted to the shapes the capture group can give
after `replace(',','')`: `digits [ '.' digits ]` with at least one digit
overall; everything else (e.g. the empty string, from a group of bare
commas) raises `ValueError`, modelled as `none`. -/
def pyFloatQ (l : List Char) : Option ℚ :=
  let intPart := l.takeWhile Char.isDigit
  match l.drop intPart.length with
  | [] => if intPart.isEmpty then none else some (digitsVal intPart)
  | '.' :: frac =>
    if frac.all Char.isDigit && !(intPart.isEmpty && frac.isEmpty) then
      some ((digitsVal intPart : ℚ) + (digitsVal frac : ℚ) / ((10 : ℚ) ^ frac.length))
    else none
  | _ => none

/-- `float(price_match.group(1).replace(',', ''))` after
`re.search(r'\$?([\d,]+\.?\d*)', s)`; `none` when the regex finds no match
or the float conversion raises (both lead to `continue` in the source). -/
def extractPrice (s : String) : Option ℚ :=
  match findGroupStart s.toList with
  | none => none
  | some suffix => pyFloatQ ((groupOf suffix).filter (fun c => !(c == ',')))

/-! ## `scrape_ebay_prices` -/

/-- One candidate node of `soup.select('.s-card, .srp-results li.s-card')`,
carrying what the source's selector chains would extract from it. -/
structure Candidate where
  /-- `item.get('class', [])`. -/
  classes : List String
  /-- Stripped text of `[class*="title"]` / `span` / `a`, when one matched. -/
  title : Option String
  /-- Stripped text of `[class*="price"]` / `[class*="Price"]`, when one matched. -/
  priceText : Option String
  /-- `href` of `a[href*="ebay.com/itm"]`, when present. -/
  link : Option String
  /-- Injects an exception while processing this node (caught by the inner
  `except Exception: continue`). -/
  raises : Bool
deriving DecidableEq

/-- The body of the per-candidate loop of `scrape_ebay_prices`: `some`
listing when the candidate is accepted, `none` when any filter skips it
(or the inner exception handler fires). -/
def examineCandidate (bakugan_name : String) (c : Candidate) : Option Listing :=
  if c.raises then none
  else if !(c.classes.contains "s-card") then none
  else match c.title, c.priceText with
  | some title, some priceText =>
    if lowerStr title == "shop on ebay" || strIn "shop on ebay" (lowerStr title) then none
    else if strIn "sellers with" (lowerStr title) || strIn "returns" (lowerStr title) then none
    else if !(strIn (lowerStr bakugan_name) (lowerStr title)) then none
    else match extractPrice priceText with
      | none => none
      | some price =>
        if price < 1 || 500 < price then none
        else some { title := pyTake 80 title, price := price, url := c.link }
  | _, _ => none

/-- The candidate loop: returns the accepted listings in document order and
the number of candidates examined. `k` counts listings accepted so far;
after an acceptance the loop breaks once `len(prices) >= limit`. -/
def scanListings (name : String) (limit : Int) (k : Nat) :
    List Candidate → List Listing × Nat
  | [] => ([], 0)
  | c :: rest =>
    match examineCandidate name c with
    | none =>
      let (ls, n) := scanListings name limit k rest
      (ls, n + 1)
    | some l =>
      if limit ≤ (k : Int) + 1 then ([l], 1)
      else
        let (ls, n) := scanListings name limit (k + 1) rest
        (l :: ls, n + 1)

/-- Environment of one `scrape_ebay_prices` call: the behaviour of the
driver, the page retrieval, and the parsed page. -/
structure PriceEnv where
  /-- `create_selenium_driver()` returned a driver (it catches its own
  errors and returns `None` on failure). -/
  driverOk : Bool
  /-- Exception raised during navigation / page retrieval / parsing; the
  outer handlers catch it. -/
  loadExc : Option PyExc
  /-- `soup.select('.s-card, .srp-results li.s-card')`, document order. -/
  candidates : List Candidate

/-- The `try`-block body of `scrape_ebay_prices`, with exceptions
propagating. -/
def scrapeBody (bakugan_name : String) (attr : Option String) (limit : Int)
    (rarity : Option String) (env : PriceEnv) : Except PyExc PricingResult :=
  let result := initPricingResult bakugan_name
  if !env.driverOk then
    .ok { applyUpdate result (estimate_price_by_rarity rarity) with
          bakugan_name := bakugan_name
          error := some "Failed to create browser driver" }
  else match env.loadExc with
  | some e => .error e
  | none =>
    let (listings, _) := scanListings bakugan_name limit 0 (pySliceTo (limit * 3) env.candidates)
    let prices := listings.map (fun l => l.price)
    if !prices.isEmpty then
      .ok { result with
            success := true
            average_price := some (round2 (listMean prices))
            min_price := some (qListMin prices)
            max_price := some (qListMax prices)
            num_listings := prices.length
            listings := listings }
    else
      .ok { applyUpdate result (estimate_price_by_rarity rarity) with
            bakugan_name := bakugan_name }

/-- The `except WebDriverException` / `except Exception` handlers of
`scrape_ebay_prices`. At every raise point the result dict still holds its
initial field values, which is what `result` is instantiated with. -/
def pricingHandler (bakugan_name : String) (rarity : Option String)
    (result : PricingResult) : PyExc → PricingResult
  | .webDriver m =>
    { applyUpdate result (estimate_price_by_rarity rarity) with
      bakugan_name := bakugan_name
      error := some ("Browser error: " ++ pyTake 100 m) }
  | .generic m =>
    { applyUpdate result (estimate_price_by_rarity rarity) with
      bakugan_name := bakugan_name
      error := some (pyTake 100 m) }

/-- `scrape_ebay_prices(bakugan_name, attribute, limit, rarity)`. -/
def scrape_ebay_prices (bakugan_name : String) (attr : Option String)
    (limit : Int) (rarity : Option String) (env : PriceEnv) : PricingResult :=
  pyTry (scrapeBody bakugan_name attr limit rarity env)
    (pricingHandler bakugan_name rarity (initPricingResult bakugan_name))

/-- `scrape_ebay_prices` at the exception-propagation level. -/
def scrape_ebay_pricesE (bakugan_name : String) (attr : Option String)
    (limit : Int) (rarity : Option String) (env : PriceEnv) :
    Except PyExc PricingResult :=
  pyTryE (scrapeBody bakugan_name attr limit rarity env)
    (fun e => .ok (pricingHandler bakugan_name rarity (initPricingResult bakugan_name) e))

/-- Number of candidate listing nodes of the parsed page the loop of
`scrape_ebay_prices` examines: the loop runs over `listings[:limit * 3]`
and may break early. -/
def examinedCandidates (name : String) (limit : Int) (env : PriceEnv) : Nat :=
  (scanListings name limit 0 (pySliceTo (limit * 3) env.candidates)).2

/-! ## `scrape_reference_images` -/

/-- One image item dict: `{url, title, source}`. -/
structure ImageItem where
  url : String
  title : String
  source : String
deriving DecidableEq

/-- The `result` dict of `scrape_reference_images`. -/
structure ImagesResult where
  success : Bool
  bakugan_name : String
  images : List ImageItem
  error : Option String
deriving DecidableEq

/-- One `a.iusc` anchor of the parsed Bing page, with the `m` attribute
already JSON-decoded: `hasM` is the truthiness of `item.get('m')`,
`parseFails` injects a `json.loads` failure (caught by the inner
`except Exception: continue`), `murl`/`t` are `data.get('murl')` and
`data.get('t')`. -/
structure ImgAnchor where
  hasM : Bool
  parseFails : Bool
  murl : Option String
  t : Option String
deriving DecidableEq

/-- One fallback `img.mimg, .img_cont img` tag: its `src` and `data-src`
attributes. -/
structure ImgTag where
  src : Option String
  dataSrc : Option String
deriving DecidableEq

/-- Disallowed-substring test of the primary image path:
`any(x in img_url.lower() for x in ['gif', 'svg', 'logo'])`. -/
def hasBadImgSub (u : String) : Bool :=
  strIn "gif" (lowerStr u) || strIn "svg" (lowerStr u) || strIn "logo" (lowerStr u)

/-- Body of the per-anchor loop: `some` item when accepted. -/
def processAnchor (bakugan_name : String) (a : ImgAnchor) : Option ImageItem :=
  if !a.hasM then none
  else if a.parseFails then none
  else
    let title := a.t.getD bakugan_name
    match a.murl with
    | none => none
    | some img_url =>
      if img_url == "" then none
      else if hasBadImgSub img_url then none
      else some { url := img_url
                  title := if 60 < title.length then pyTake 60 title else title
                  source := "Web" }

/-- The primary collection loop over `a.iusc` anchors: the break test
`len(result["images"]) >= limit` runs at the top of each iteration. -/
def collectAnchors (bakugan_name : String) (limit : Int)
    (acc : List ImageItem) : List ImgAnchor → List ImageItem
  | [] => acc
  | a :: rest =>
    if limit ≤ (acc.length : Int) then acc
    else match processAnchor bakugan_name a with
      | some item => collectAnchors bakugan_name limit (acc ++ [item]) rest
      | none => collectAnchors bakugan_name limit acc rest

/-- The fallback collection loop over `img` tags (`img_tags[:limit]`),
entered only when the primary loop collected nothing. -/
def collectImgTags (bakugan_name : String) (limit : Int)
    (tags : List ImgTag) : List ImageItem :=
  (pySliceTo limit tags).foldl
    (fun acc img =>
      let src := pyOrStr img.src img.dataSrc
      match src with
      | some s =>
        if truthy (some s) && startsWithStr s "http" && !(strIn "bing.com/th" (lowerStr s)) then
          acc ++ [{ url := s, title := bakugan_name, source := "Web" }]
        else acc
      | none => acc)
    []

/-- `get_placeholder_images(bakugan_name, attribute)` of `scraper.py`. -/
def get_placeholder_images (bakugan_name : String) (attr : Option String) :
    List ImageItem :=
  let color := (String.drop (match attr with
    | some a => (ATTRIBUTE_COLORS a).getD "#888888"
    | none => "#888888") 1)
  [{ url := "https://via.placeholder.com/300x300/" ++ color ++ "/fff?text=" ++ pyTake 3 bakugan_name
     title := bakugan_name ++ " (" ++ (if truthy attr then attr.getD "Unknown" else "Unknown") ++ ")"
     source := "Placeholder" }]

/-- Environment of one `scrape_reference_images` call. -/
structure ImageEnv where
  driverOk : Bool
  loadExc : Option PyExc
  /-- `soup.select('a.iusc')`, document order. -/
  anchors : List ImgAnchor
  /-- `soup.select('img.mimg, .img_cont img')`, document order. -/
  imgTags : List ImgTag

/-- The real (non-placeholder) images one call collects: primary anchors
first, the `img`-tag fallback only when the primary loop found nothing. -/
def collectedImages (bakugan_name : String) (limit : Int) (env : ImageEnv) :
    List ImageItem :=
  let primary := collectAnchors bakugan_name limit [] env.anchors
  if primary.isEmpty then collectImgTags bakugan_name limit env.imgTags
  else primary

/-- The `try`-block body of `scrape_reference_images`, with exceptions
propagating. -/
def imagesBody (bakugan_name : String) (attr : Option String) (limit : Int)
    (env : ImageEnv) : Except PyExc ImagesResult :=
  let result : ImagesResult :=
    { success := false, bakugan_name := bakugan_name, images := [], error := none }
  if !env.driverOk then
    let imgs := get_placeholder_images bakugan_name attr
    .ok { result with images := imgs, success := !imgs.isEmpty }
  else match env.loadExc with
  | some e => .error e
  | none =>
    let imgs := collectedImages bakugan_name limit env
    if !imgs.isEmpty then
      .ok { result with images := imgs, success := true }
    else
      let ph := get_placeholder_images bakugan_name attr
      if !ph.isEmpty then
        .ok { result with images := ph, success := true }
      else
        .ok { result with images := ph, error := some "No images found" }

/-- The `except Exception` handler of `scrape_reference_images`; at every
raise point the result dict still holds its initial field values. -/
def imagesHandler (bakugan_name : String) (attr : Option String)
    (result : ImagesResult) (e : PyExc) : ImagesResult :=
  let ph := get_placeholder_images bakugan_name attr
  if !ph.isEmpty then
    { result with images := ph, success := true }
  else
    { result with images := ph, error := some (pyTake 100 e.msg) }

/-- `scrape_reference_images(bakugan_name, attribute, limit)`. -/
def scrape_reference_images (bakugan_name : String) (attr : Option String)
    (limit : Int) (env : ImageEnv) : ImagesResult :=
  pyTry (imagesBody bakugan_name attr limit env)
    (imagesHandler bakugan_name attr
      { success := false, bakugan_name := bakugan_name, images := [], error := none })

/-- `scrape_reference_images` at the exception-propagation level. -/
def scrape_reference_imagesE (bakugan_name : String) (attr : Option String)
    (limit : Int) (env : ImageEnv) : Except PyExc ImagesResult :=
  pyTryE (imagesBody bakugan_name attr limit env)
    (fun e => .ok (imagesHandler bakugan_name attr
      { success := false, bakugan_name := bakugan_name, images := [], error := none } e))

/-! ## `get_market_data` -/

/-- The `pricing` sub-dict `get_market_data` builds. -/
structure PricingView where
  success : Bool
  estimated : Bool
  average_price : Option ℚ
  min_price : Option ℚ
  max_price : Option ℚ
  num_listings : Nat
  listings : List Listing
  error : Option String
deriving DecidableEq

/-- The `images` sub-dict `get_market_data` builds. -/
structure ImagesView where
  success : Bool
  items : List ImageItem
  error : Option String
deriving DecidableEq

/-- The dict `get_market_data` returns. -/
structure MarketData where
  bakugan_name : String
  attr : Option String
  pricing : PricingView
  images : ImagesView
deriving DecidableEq

/-- The composition step of `get_market_data` from the two sub-results. -/
def composeMarketData (bakugan_name : String) (attr : Option String)
    (pricing : PricingResult) (images : ImagesResult) : MarketData :=
  { bakugan_name := bakugan_name
    attr := attr
    pricing :=
      { success := pricing.success
        estimated := pricing.estimated
        average_price := pricing.average_price
        min_price := pricing.min_price
        max_price := pricing.max_price
        num_listings := pricing.num_listings
        listings := pySliceTo 5 pricing.listings
        error := pricing.error }
    images :=
      { success := images.success
        items := pySliceTo 6 images.images
        error := images.error } }

/-- `get_market_data(bakugan_name, attribute, rarity)`: one pricing scrape
(default `limit=10`), one image scrape with `limit=6`, then composition. -/
def get_market_data (bakugan_name : String) (attr : Option String)
    (rarity : Option String) (penv : PriceEnv) (ienv : ImageEnv) : MarketData :=
  composeMarketData bakugan_name attr
    (scrape_ebay_prices bakugan_name attr 10 rarity penv)
    (scrape_reference_images bakugan_name attr 6 ienv)

/-- `get_market_data` at the exception-propagation level. -/
def get_market_dataE (bakugan_name : String) (attr : Option String)
    (rarity : Option String) (penv : PriceEnv) (ienv : ImageEnv) :
    Except PyExc MarketData := do
  let pricing ← scrape_ebay_pricesE bakugan_name attr 10 rarity penv
  let images ← scrape_reference_imagesE bakugan_name attr 6 ienv
  return composeMarketData bakugan_name attr pricing images

/-! ## `analyze_bakugan` of `main.py` (identification client) -/

/-- Result of the vision-model call and of the JSON extraction the source
performs on `response.choices[0].message.content`:
`apiRaises` — the API call (or anything else in the `try` block) raises;
`noJson` — the reply text holds no `{…}` region (`find('{')`/`rfind('}')`
fail), so the source returns its own "Could not parse response" dict;
`badJson` — a `{…}` region exists but `json.loads` raises on it;
`ok` — a JSON object was extracted, with these `name` / `confidence` /
`description` fields. -/
inductive VisionEnv where
  | apiRaises (msg : String)
  | noJson
  | badJson (msg : String)
  | ok (name : String) (confidence : ℚ) (description : String)
deriving DecidableEq

/-- One identification result as `analyze_bakugan` returns it (the fields
the claims inspect; the parsed dict is returned verbatim in the `ok` case). -/
structure IdentificationResult where
  name : String
  confidence : ℚ
  description : String
deriving DecidableEq

/-- `analyze_bakugan(image_base64)` of `main.py`. -/
def analyze_bakugan (env : VisionEnv) : IdentificationResult :=
  match env with
  | .apiRaises m => { name := "Error", confidence := 0, description := m }
  | .noJson => { name := "Unknown", confidence := 0, description := "Could not parse response" }
  | .badJson m => { name := "Error", confidence := 0, description := m }
  | .ok n c d => { name := n, confidence := c, description := d }

/-! ## Helper lemmas -/

/-- A `try/except` whose handler returns normally never lets an exception
escape. -/
lemma pyTryE_catches (body : Except PyExc α) (handler : PyExc → α) :
    pyTryE body (fun e => .ok (handler e)) = .ok (pyTry body handler) := by
  cases body <;> rfl

/-- Structural shape of every `scrape_ebay_prices` result: either the
estimated fallback (rarity-table values, no listings) or a real success
whose statistics are computed from the accepted listings. -/
lemma scrape_shape (name : String) (attr : Option String) (limit : Int)
    (rarity : Option String) (env : PriceEnv) (r : PricingResult)
    (hr : r = scrape_ebay_prices name attr limit rarity env) :
    (r.estimated = true ∧ r.success = true ∧ r.num_listings = 0 ∧ r.listings = [] ∧
      r.average_price = some (selectTier rarity).avg ∧
      r.min_price = some (selectTier rarity).min ∧
      r.max_price = some (selectTier rarity).max)
    ∨ (r.estimated = false ∧ r.success = true ∧
      r.num_listings = r.listings.length ∧ r.listings ≠ [] ∧
      r.average_price = some (round2 (listMean (r.listings.map (fun l => l.price)))) ∧
      r.min_price = some (qListMin (r.listings.map (fun l => l.price))) ∧
      r.max_price = some (qListMax (r.listings.map (fun l => l.price)))) := by
  subst hr
  rcases env with ⟨dok, lexc, cands⟩
  unfold scrape_ebay_prices pyTry scrapeBody
  cases dok with
  | false =>
    left
    simp [applyUpdate, estimate_price_by_rarity, initPricingResult]
  | true =>
    cases lexc with
    | some e =>
      cases e with
      | webDriver m =>
        left
        simp [pricingHandler, applyUpdate, estimate_price_by_rarity, initPricingResult]
      | generic m =>
        left
        simp [pricingHandler, applyUpdate, estimate_price_by_rarity, initPricingResult]
    | none =>
      simp only [Bool.not_true, Bool.false_eq_true, if_false]
      set L := (scanListings name limit 0 (pySliceTo (limit * 3) cands)).1 with hL
      by_cases hP : (L.map (fun l => l.price)).isEmpty
      · left
        simp [hP, applyUpdate, estimate_price_by_rarity, initPricingResult]
      · right
        simp only [hP, Bool.not_false, if_true]
        refine ⟨by trivial, by trivial, ?_, ?_, by trivial, by trivial, by trivial⟩
        · simp [initPricingResult]
        · intro hnil
          simp [initPricingResult, hnil] at hP

/-! ## Claim theorems -/

/-- C1: for every call to `scrape_ebay_prices`, `scrape_reference_images`,
or `get_market_data`, with any arguments and any behaviour of the driver,
network and page, no exception propagates to the caller: at the
exception-propagation level each function returns `.ok` of the result the
caller observes. -/
theorem noExceptionPropagates (name : String) (attr : Option String)
    (plimit ilimit : Int) (rarity : Option String)
    (penv : PriceEnv) (ienv : ImageEnv) :
    scrape_ebay_pricesE name attr plimit rarity penv =
      .ok (scrape_ebay_prices name attr plimit rarity penv)
    ∧ scrape_reference_imagesE name attr ilimit ienv =
      .ok (scrape_reference_images name attr ilimit ienv)
    ∧ get_market_dataE name attr rarity penv ienv =
      .ok (get_market_data name attr rarity penv ienv) := by
  refine ⟨pyTryE_catches _ _, pyTryE_catches _ _, ?_⟩
  unfold get_market_dataE get_market_data scrape_ebay_pricesE scrape_ebay_prices
    scrape_reference_imagesE scrape_reference_images pyTryE pyTry
  cases scrapeBody name attr 10 rarity penv <;>
    cases imagesBody name attr 6 ienv <;> rfl

unseal Rat.add Rat.mul Rat.inv Rat.sub in
/-- C5 counterexample: with `limit = -1` (so `limit ≤ 0`) and a page of
four acceptable candidates, `scrape_ebay_prices` returns a real,
non-estimated success — not the estimated fallback the claim requires for
every `limit ≤ 0` (Python's `listings[:limit * 3]` drops only the last
three candidates, and `len(prices) >= limit` holds immediately). -/
theorem negativeLimitCounterexample :
    (scrape_ebay_prices "Dragonoid" none (-1) (some "Rare")
      { driverOk := true, loadExc := none
        candidates := List.replicate 4
          { classes := ["s-card"], title := some "Dragonoid Pyrus figure"
            priceText := some "$5.99", link := none, raises := false } }).estimated = false
    ∧ (scrape_ebay_prices "Dragonoid" none (-1) (some "Rare")
      { driverOk := true, loadExc := none
        candidates := List.replicate 4
          { classes := ["s-card"], title := some "Dragonoid Pyrus figure"
            priceText := some "$5.99", link := none, raises := false } }).success = true := by
  constructor <;> decide

/-- C5 (amended): with `limit = 0`, for every input page and driver
behaviour, `scrape_ebay_prices` returns an estimated fallback result
(`listings[:0]` is empty, so zero listings are accepted); for negative
limits Python slice semantics can keep leading candidates, so the fallback
is not guaranteed. -/
theorem zeroLimitEstimated (name : String) (attr : Option String)
    (rarity : Option String) (env : PriceEnv) :
    (scrape_ebay_prices name attr 0 rarity env).estimated = true
    ∧ (scrape_ebay_prices name attr 0 rarity env).average_price =
        some (selectTier rarity).avg
    ∧ (scrape_ebay_prices name attr 0 rarity env).min_price =
        some (selectTier rarity).min
    ∧ (scrape_ebay_prices name attr 0 rarity env).max_price =
        some (selectTier rarity).max := by
  rcases env with ⟨dok, lexc, cands⟩
  unfold scrape_ebay_prices pyTry scrapeBody
  cases dok with
  | false => simp [applyUpdate, estimate_price_by_rarity, initPricingResult]
  | true =>
    cases lexc with
    | some e =>
      cases e <;>
        simp [pricingHandler, applyUpdate, estimate_price_by_rarity, initPricingResult]
    | none =>
      simp [pySliceTo, applyUpdate, estimate_price_by_rarity, initPricingResult,
        scanListings]

/-- C7 counterexample: `analyze_bakugan` does not enforce the
`confidence < 0.3 → name = "Unknown"` rule; a model reply parsed as
`{"name": "Dragonoid", "confidence": 0.1}` is returned verbatim, so the
result carries confidence `0.1 < 0.3` with a name other than `"Unknown"`. -/
theorem lowConfidenceCounterexample :
    (analyze_bakugan (.ok "Dragonoid" (1/10) "a red dragon figure")).confidence < 3/10
    ∧ (analyze_bakugan (.ok "Dragonoid" (1/10) "a red dragon figure")).name ≠ "Unknown" := by
  constructor
  · norm_num [analyze_bakugan]
  · intro h
    simp [analyze_bakugan] at h

/-- C7 (amended): `analyze_bakugan` returns the model's parsed reply
verbatim, so `name = "Unknown"` holds exactly when the model itself
answers `"Unknown"` (which the prompt instructs it to do whenever its
confidence is below 0.3) or when no JSON object can be extracted from the
reply; in particular a compliant reply with confidence 0.1 and name
`"Unknown"` yields `name = "Unknown"`. The threshold itself is not
enforced in code. -/
theorem analyzePassesModelNameThrough (n : String) (c : ℚ) (d : String) :
    (analyze_bakugan (.ok n c d)).name = n
    ∧ (analyze_bakugan .noJson).name = "Unknown"
    ∧ (analyze_bakugan (.ok "Unknown" (1/10) d)).name = "Unknown" :=
  ⟨rfl, rfl, rfl⟩

/-- C2 counterexample: against a page with zero matching listings the
scraper returns the estimated fallback, whose `success` is `true` while
`num_listings` is `0` — refuting the claim's `success = true →
num_listings ≥ 1` without the `estimated = false` qualification. -/
theorem pricingInvariantCounterexample :
    (scrape_ebay_prices "Dragonoid" (some "Pyrus") 10 (some "Rare")
      { driverOk := true, loadExc := none, candidates := [] }).success = true
    ∧ (scrape_ebay_prices "Dragonoid" (some "Pyrus") 10 (some "Rare")
      { driverOk := true, loadExc := none, candidates := [] }).estimated = true
    ∧ (scrape_ebay_prices "Dragonoid" (some "Pyrus") 10 (some "Rare")
      { driverOk := true, loadExc := none, candidates := [] }).num_listings = 0 := by
  refine ⟨rfl, rfl, rfl⟩

/-- C2 (amended): `estimated = true` implies `success = true` and
`num_listings = 0`; and `success = true` together with `estimated = false`
implies `num_listings ≥ 1` and that `average_price` is the arithmetic mean
of the accepted listing prices rounded to two decimal places. (The claim's
bare `success = true → num_listings ≥ 1` fails on estimated fallbacks,
which also carry `success = true`.) -/
theorem pricingInvariantAmended (name : String) (attr : Option String)
    (limit : Int) (rarity : Option String) (env : PriceEnv) :
    ((scrape_ebay_prices name attr limit rarity env).estimated = true →
      (scrape_ebay_prices name attr limit rarity env).success = true ∧
      (scrape_ebay_prices name attr limit rarity env).num_listings = 0)
    ∧ ((scrape_ebay_prices name attr limit rarity env).success = true →
      (scrape_ebay_prices name attr limit rarity env).estimated = false →
      1 ≤ (scrape_ebay_prices name attr limit rarity env).num_listings ∧
      (scrape_ebay_prices name attr limit rarity env).average_price =
        some (round2 (listMean
          ((scrape_ebay_prices name attr limit rarity env).listings.map
            (fun l => l.price))))) := by
  rcases scrape_shape name attr limit rarity env _ rfl with
    ⟨h1, h2, h3, _, _, _, _⟩ | ⟨h1, h2, h3, h4, h5, _, _⟩
  · refine ⟨fun _ => ⟨h2, h3⟩, fun _ hf => ?_⟩
    rw [hf] at h1
    cases h1
  · refine ⟨fun hest => ?_, fun _ _ => ⟨?_, h5⟩⟩
    · rw [h1] at hest
      cases hest
    · rw [h3]
      exact List.length_pos.mpr h4

/-- C2 witness: the amended invariant applied to a concrete estimated
fallback call. -/
theorem pricingInvariantAmendedWitness :
    (scrape_ebay_prices "Dragonoid" none 10 (some "Ultra Rare")
      { driverOk := false, loadExc := none, candidates := [] }).success = true ∧
    (scrape_ebay_prices "Dragonoid" none 10 (some "Ultra Rare")
      { driverOk := false, loadExc := none, candidates := [] }).num_listings = 0 :=
  (pricingInvariantAmended "Dragonoid" none 10 (some "Ultra Rare")
    { driverOk := false, loadExc := none, candidates := [] }).1 rfl

/-- C6 counterexample: with `limit = 1` and a page of three candidates the
loop examines all three of them — more than the `limit * 2 = 2` the claim
allows (the source slices `listings[:limit * 3]`). -/
theorem examinedCountCounterexample :
    examinedCandidates "Dragonoid" 1
      { driverOk := true, loadExc := none
        candidates := List.replicate 3
          { classes := ["s-card"], title := some "Dragonoid"
            priceText := none, link := none, raises := false } } = 3
    ∧ ¬((examinedCandidates "Dragonoid" 1
      { driverOk := true, loadExc := none
        candidates := List.replicate 3
          { classes := ["s-card"], title := some "Dragonoid"
            priceText := none, link := none, raises := false } } : Int) ≤ 1 * 2) := by
  refine ⟨rfl, by decide⟩

/-- Helper: the candidate loop never examines more nodes than the sliced
candidate list holds. -/
lemma scanListings_count_le (name : String) (limit : Int) :
    ∀ (l : List Candidate) (k : Nat), (scanListings name limit k l).2 ≤ l.length := by
  intro l
  induction l with
  | nil => intro k; simp [scanListings]
  | cons c rest ih =>
    intro k
    unfold scanListings
    cases h : examineCandidate name c with
    | none =>
      simpa using Nat.succ_le_succ (ih k)
    | some l' =>
      by_cases hb : limit ≤ (k : Int) + 1
      · simp [hb]
      · simpa [hb] using Nat.succ_le_succ (ih (k + 1))

/-- C6 (amended): for every positive `limit`, at most `limit * 3` (not
`limit * 2`) candidate listing nodes of the parsed page are examined, in
document order. -/
theorem examinedAtMostTripleLimit (name : String) (limit : Int) (env : PriceEnv)
    (h : 0 < limit) :
    (examinedCandidates name limit env : Int) ≤ limit * 3 := by
  have h30 : (0 : Int) ≤ limit * 3 := by positivity
  have h1 : examinedCandidates name limit env ≤
      (pySliceTo (limit * 3) env.candidates).length :=
    scanListings_count_le name limit _ 0
  have h2 : ((pySliceTo (limit * 3) env.candidates).length : Int) ≤ limit * 3 := by
    have hle : (pySliceTo (limit * 3) env.candidates).length ≤ (limit * 3).toNat := by
      unfold pySliceTo
      rw [if_pos h30, List.length_take]
      exact Nat.min_le_left _ _
    calc ((pySliceTo (limit * 3) env.candidates).length : Int)
        ≤ ((limit * 3).toNat : Int) := by exact_mod_cast hle
      _ = limit * 3 := Int.toNat_of_nonneg h30
  exact le_trans (by exact_mod_cast h1) h2

/-- C6 witness: the amended bound applied at a concrete positive limit. -/
theorem examinedAtMostTripleLimitWitness :
    (examinedCandidates "Dragonoid" 1
      { driverOk := true, loadExc := none, candidates := [] } : Int) ≤ 1 * 3 :=
  examinedAtMostTripleLimit "Dragonoid" 1
    { driverOk := true, loadExc := none, candidates := [] } (by decide)

/-- C8: `scrape_ebay_prices("Dragonoid", "Pyrus", limit=10, rarity="Rare")`
run against any driver/page environment in which the page loads but zero
listings are accepted yields the estimated fallback
`{success: true, estimated: true, average_price: 30, min_price: 20,
max_price: 50, num_listings: 0}`. -/
theorem dragonoidRareEstimatedScenario (env : PriceEnv)
    (hdrv : env.driverOk = true) (hexc : env.loadExc = none)
    (hzero : (scanListings "Dragonoid" 10 0 (pySliceTo (10 * 3) env.candidates)).1 = []) :
    (scrape_ebay_prices "Dragonoid" (some "Pyrus") 10 (some "Rare") env).success = true
    ∧ (scrape_ebay_prices "Dragonoid" (some "Pyrus") 10 (some "Rare") env).estimated = true
    ∧ (scrape_ebay_prices "Dragonoid" (some "Pyrus") 10 (some "Rare") env).average_price = some 30
    ∧ (scrape_ebay_prices "Dragonoid" (some "Pyrus") 10 (some "Rare") env).min_price = some 20
    ∧ (scrape_ebay_prices "Dragonoid" (some "Pyrus") 10 (some "Rare") env).max_price = some 50
    ∧ (scrape_ebay_prices "Dragonoid" (some "Pyrus") 10 (some "Rare") env).num_listings = 0 := by
  rcases env with ⟨dok, lexc, cands⟩
  simp only at hdrv hexc hzero
  subst hdrv
  subst hexc
  rw [show ((10 : Int) * 3) = 30 from rfl] at hzero
  unfold scrape_ebay_prices pyTry scrapeBody
  simp [hzero, applyUpdate, estimate_price_by_rarity, initPricingResult,
    selectTier, truthy, RARITY_VALUES]

/-- C8 witness: the scenario applied to the empty page. -/
theorem dragonoidRareEstimatedScenarioWitness :
    (scrape_ebay_prices "Dragonoid" (some "Pyrus") 10 (some "Rare")
      { driverOk := true, loadExc := none, candidates := [] }).success = true
    ∧ (scrape_ebay_prices "Dragonoid" (some "Pyrus") 10 (some "Rare")
      { driverOk := true, loadExc := none, candidates := [] }).estimated = true
    ∧ (scrape_ebay_prices "Dragonoid" (some "Pyrus") 10 (some "Rare")
      { driverOk := true, loadExc := none, candidates := [] }).average_price = some 30
    ∧ (scrape_ebay_prices "Dragonoid" (some "Pyrus") 10 (some "Rare")
      { driverOk := true, loadExc := none, candidates := [] }).min_price = some 20
    ∧ (scrape_ebay_prices "Dragonoid" (some "Pyrus") 10 (some "Rare")
      { driverOk := true, loadExc := none, candidates := [] }).max_price = some 50
    ∧ (scrape_ebay_prices "Dragonoid" (some "Pyrus") 10 (some "Rare")
      { driverOk := true, loadExc := none, candidates := [] }).num_listings = 0 :=
  dragonoidRareEstimatedScenario
    { driverOk := true, loadExc := none, candidates := [] } rfl rfl rfl

/-- C10: when `scrape_ebay_prices` falls back because driver creation
failed or an exception was raised during the scrape, the returned summary
has `success = true` (and `estimated = true`) together with a non-null
error message — at the public interface `success = true` does not imply
`error = None`. -/
theorem fallbackErrorMessage (name : String) (attr : Option String)
    (limit : Int) (rarity : Option String) (env : PriceEnv)
    (h : env.driverOk = false ∨ env.loadExc ≠ none) :
    (scrape_ebay_prices name attr limit rarity env).success = true
    ∧ (scrape_ebay_prices name attr limit rarity env).estimated = true
    ∧ (scrape_ebay_prices name attr limit rarity env).error ≠ none := by
  rcases env with ⟨dok, lexc, cands⟩
  unfold scrape_ebay_prices pyTry scrapeBody
  cases dok with
  | false =>
    simp [applyUpdate, estimate_price_by_rarity, initPricingResult]
  | true =>
    rcases h with h | h
    · cases h
    · cases lexc with
      | none => exact absurd rfl h
      | some e =>
        cases e <;>
          simp [pricingHandler, applyUpdate, estimate_price_by_rarity, initPricingResult]

/-- C10 witness: a concrete driver-creation failure. -/
theorem fallbackErrorMessageWitness :
    (scrape_ebay_prices "Dragonoid" none 10 none
      { driverOk := false, loadExc := none, candidates := [] }).success = true
    ∧ (scrape_ebay_prices "Dragonoid" none 10 none
      { driverOk := false, loadExc := none, candidates := [] }).estimated = true
    ∧ (scrape_ebay_prices "Dragonoid" none 10 none
      { driverOk := false, loadExc := none, candidates := [] }).error ≠ none :=
  fallbackErrorMessage "Dragonoid" none 10 none
    { driverOk := false, loadExc := none, candidates := [] } (Or.inl rfl)

unseal Rat.add Rat.mul Rat.inv Rat.sub in
/-- C3 counterexample: a page with six accepted listings of prices
`[1, 1, 1, 1, 1, 7]` gives `average_price = 2`, but `get_market_data`
truncates the returned `listings` to the first five, whose recomputed
rounded mean is `1` — so recomputing the mean from the listings returned
by `get_market_data` does not reproduce `average_price`. -/
theorem marketAverageCounterexample :
    (get_market_data "Dragonoid" none none
      { driverOk := true, loadExc := none
        candidates := List.replicate 5
          { classes := ["s-card"], title := some "Dragonoid lot"
            priceText := some "$1", link := none, raises := false } ++
          [{ classes := ["s-card"], title := some "Dragonoid lot"
             priceText := some "$7", link := none, raises := false }] }
      { driverOk := true, loadExc := none, anchors := [], imgTags := [] }).pricing.average_price
      = some 2
    ∧ round2 (listMean
        (((get_market_data "Dragonoid" none none
          { driverOk := true, loadExc := none
            candidates := List.replicate 5
              { classes := ["s-card"], title := some "Dragonoid lot"
                priceText := some "$1", link := none, raises := false } ++
              [{ classes := ["s-card"], title := some "Dragonoid lot"
                 priceText := some "$7", link := none, raises := false }] }
          { driverOk := true, loadExc := none, anchors := [], imgTags := [] }).pricing.listings).map
          (fun l => l.price))) = 1 := by
  constructor <;> decide

/-- C3 (amended): for `scrape_ebay_prices` results with `success = true`
and `estimated = false`, `average_price` is the rounded mean of the prices
of the returned `listings`; for `get_market_data` (which passes
`average_price` through but truncates `listings` to the first five) the
same recomputation holds whenever `num_listings ≤ 5`, so that the
truncation loses nothing. -/
theorem averageMatchesListings (name : String) (attr : Option String)
    (limit : Int) (rarity : Option String) (penv : PriceEnv) (ienv : ImageEnv) :
    ((scrape_ebay_prices name attr limit rarity penv).success = true →
      (scrape_ebay_prices name attr limit rarity penv).estimated = false →
      (scrape_ebay_prices name attr limit rarity penv).average_price =
        some (round2 (listMean
          ((scrape_ebay_prices name attr limit rarity penv).listings.map
            (fun l => l.price)))))
    ∧ ((get_market_data name attr rarity penv ienv).pricing.estimated = false →
      (get_market_data name attr rarity penv ienv).pricing.num_listings ≤ 5 →
      (get_market_data name attr rarity penv ienv).pricing.average_price =
        some (round2 (listMean
          ((get_market_data name attr rarity penv ienv).pricing.listings.map
            (fun l => l.price))))) := by
  constructor
  · rcases scrape_shape name attr limit rarity penv _ rfl with
      ⟨h1, _, _, _, _, _, _⟩ | ⟨_, _, _, _, h5, _, _⟩
    · intro _ hf
      rw [hf] at h1
      cases h1
    · intro _ _
      exact h5
  · simp only [get_market_data, composeMarketData]
    rcases scrape_shape name attr 10 rarity penv _ rfl with
      ⟨h1, _, _, _, _, _, _⟩ | ⟨_, _, h3, _, h5, _, _⟩
    · intro hf
      rw [h1] at hf
      cases hf
    · intro _ hn
      rw [h3] at hn
      have htake : pySliceTo 5 (scrape_ebay_prices name attr 10 rarity penv).listings =
          (scrape_ebay_prices name attr 10 rarity penv).listings := by
        unfold pySliceTo
        rw [if_pos (by decide)]
        exact List.take_of_length_le hn
      rw [htake]
      exact h5

/-- C3 witness: the amended statement applied to a page with one accepted
listing (so truncation to five loses nothing). -/
theorem averageMatchesListingsWitness :
    (get_market_data "Dragonoid" none none
      { driverOk := true, loadExc := none
        candidates := [{ classes := ["s-card"], title := some "Dragonoid toy"
                         priceText := some "$5", link := none, raises := false }] }
      { driverOk := true, loadExc := none, anchors := [], imgTags := [] }).pricing.average_price =
      some (round2 (listMean
        (((get_market_data "Dragonoid" none none
          { driverOk := true, loadExc := none
            candidates := [{ classes := ["s-card"], title := some "Dragonoid toy"
                             priceText := some "$5", link := none, raises := false }] }
          { driverOk := true, loadExc := none, anchors := [], imgTags := [] }).pricing.listings).map
          (fun l => l.price)))) :=
  (averageMatchesListings "Dragonoid" none 10 none
    { driverOk := true, loadExc := none
      candidates := [{ classes := ["s-card"], title := some "Dragonoid toy"
                       priceText := some "$5", link := none, raises := false }] }
    { driverOk := true, loadExc := none, anchors := [], imgTags := [] }).2
    (by decide) (by decide)

/-- C4 counterexample: the `img`-tag fallback path of
`scrape_reference_images` only checks for an `http` prefix and the Bing
thumbnail host — it has no `gif`/`svg`/`logo` filter, so a page whose only
parseable image is `http://example.com/logo.png` produces a returned image
item whose URL contains `logo`. -/
theorem imageFilterCounterexample :
    (scrape_reference_images "Dragonoid" none 5
      { driverOk := true, loadExc := none, anchors := []
        imgTags := [{ src := some "http://example.com/logo.png", dataSrc := none }] }).images =
      [{ url := "http://example.com/logo.png", title := "Dragonoid", source := "Web" }]
    ∧ hasBadImgSub "http://example.com/logo.png" = true := by
  constructor <;> decide

/-- Helper: an anchor the primary path accepts has already passed the
`gif`/`svg`/`logo` filter. -/
lemma processAnchor_clean (name : String) (a : ImgAnchor) (item : ImageItem)
    (h : processAnchor name a = some item) : hasBadImgSub item.url = false := by
  unfold processAnchor at h
  split at h
  · exact Option.noConfusion h
  · split at h
    · exact Option.noConfusion h
    · cases hm : a.murl with
      | none => rw [hm] at h; exact Option.noConfusion h
      | some u =>
        rw [hm] at h
        simp only at h
        split at h
        · exact Option.noConfusion h
        · split at h
          · exact Option.noConfusion h
          · rename_i hbad
            have := Option.some.inj h
            rw [← this]
            simpa using hbad

/-- Helper: every item the primary anchor loop produces is either from the
starting accumulator or has a clean URL. -/
lemma collectAnchors_mem (name : String) (limit : Int) :
    ∀ (anchors : List ImgAnchor) (acc : List ImageItem) (item : ImageItem),
      item ∈ collectAnchors name limit acc anchors →
      item ∈ acc ∨ hasBadImgSub item.url = false := by
  intro anchors
  induction anchors with
  | nil =>
    intro acc item h
    exact Or.inl (by simpa [collectAnchors] using h)
  | cons a rest ih =>
    intro acc item h
    unfold collectAnchors at h
    split at h
    · exact Or.inl h
    · cases hp : processAnchor name a with
      | some it =>
        rw [hp] at h
        simp only at h
        rcases ih (acc ++ [it]) item h with hmem | hclean
        · rcases List.mem_append.mp hmem with h1 | h1
          · exact Or.inl h1
          · have hit : item = it := by simpa using h1
            subst hit
            exact Or.inr (processAnchor_clean name a item hp)
        · exact Or.inr hclean
      | none =>
        rw [hp] at h
        simp only at h
        exact ih acc item h

/-- C4 (amended): no image item produced by the primary metadata path of
`scrape_reference_images` (the `a.iusc` anchors with a JSON `m` attribute)
has a URL containing `gif`, `svg`, or `logo` case-insensitively; the
source enforces no such filter on the `img`-tag fallback path, where such
URLs can be returned. -/
theorem primaryImagesNoBadSubstring (name : String) (limit : Int)
    (anchors : List ImgAnchor) (item : ImageItem)
    (h : item ∈ collectAnchors name limit [] anchors) :
    hasBadImgSub item.url = false := by
  rcases collectAnchors_mem name limit anchors [] item h with hmem | hclean
  · exact absurd hmem (List.not_mem_nil item)
  · exact hclean

/-- C4 witness: the amended statement applied to a concrete accepted
anchor. -/
theorem primaryImagesNoBadSubstringWitness :
    hasBadImgSub ({ url := "http://example.com/pic.jpg", title := "Dragonoid"
                    source := "Web" } : ImageItem).url = false :=
  primaryImagesNoBadSubstring "Dragonoid" 5
    [{ hasM := true, parseFails := false, murl := some "http://example.com/pic.jpg", t := none }]
    { url := "http://example.com/pic.jpg", title := "Dragonoid", source := "Web" }
    (by decide)

/-- C9: whenever driver creation fails, an exception is raised during the
scrape, or zero real images are collected, `scrape_reference_images`
returns exactly one placeholder item (source `"Placeholder"`) and
`success = true`. -/
theorem placeholderImagesGuarantee (name : String) (attr : Option String)
    (limit : Int) (env : ImageEnv)
    (h : env.driverOk = false ∨ env.loadExc ≠ none ∨
      collectedImages name limit env = []) :
    (scrape_reference_images name attr limit env).images.length = 1
    ∧ ((scrape_reference_images name attr limit env).images.map (fun i => i.source)) =
        ["Placeholder"]
    ∧ (scrape_reference_images name attr limit env).success = true := by
  rcases env with ⟨dok, lexc, anchors, tags⟩
  unfold scrape_reference_images pyTry imagesBody
  cases dok with
  | false => simp [get_placeholder_images]
  | true =>
    cases lexc with
    | some e => simp [imagesHandler, get_placeholder_images]
    | none =>
      rcases h with h | h | h
      · cases h
      · exact absurd rfl h
      · simp [h, get_placeholder_images]

/-- C9 witness: a page with no anchors and no image tags. -/
theorem placeholderImagesGuaranteeWitness :
    (scrape_reference_images "Dragonoid" (some "Pyrus") 5
      { driverOk := true, loadExc := none, anchors := [], imgTags := [] }).images.length = 1
    ∧ ((scrape_reference_images "Dragonoid" (some "Pyrus") 5
      { driverOk := true, loadExc := none, anchors := [], imgTags := [] }).images.map
        (fun i => i.source)) = ["Placeholder"]
    ∧ (scrape_reference_images "Dragonoid" (some "Pyrus") 5
      { driverOk := true, loadExc := none, anchors := [], imgTags := [] }).success = true :=
  placeholderImagesGuarantee "Dragonoid" (some "Pyrus") 5
    { driverOk := true, loadExc := none, anchors := [], imgTags := [] }
    (Or.inr (Or.inr (by decide)))
